import Mathlib

/-!
Shallow embedding of the fastify-backend authentication service
(sign-up, sign-in, OTP issuance, JWT auth gate) and proofs about it.

The relational store is modelled as in-memory lists of rows; each HTTP
handler becomes a pure function from the store and the request fields to
a response together with the updated store (and, for sign-up, a trace of
the store operations it performed, in order). External library calls
(bcrypt, jose JWT verification, the random draw) are parameters of the
functions that call them, or are modelled from the spec where noted.
-/

namespace FastifyBackend

/-! ## Data model (src/src/models/user.schema.ts, otp.schema.ts) -/

/-- A row of the `user` table: id, name, email, password (stored hash),
phone. Timestamps are irrelevant to the claims and omitted; the uuid id is
modelled as a Nat. -/
structure UserRow where
  id : Nat
  name : String
  email : String
  password : String
  phone : String
deriving DecidableEq, Repr

/-- A row of the `otp` table: id, target email, 4-digit code, used flag
(defaults to false on insert). -/
structure OtpRow where
  id : Nat
  email : String
  code : String
  isUsed : Bool
deriving DecidableEq, Repr

/-- The relational store as seen by the in-scope flows. -/
structure Store where
  users : List UserRow
  otps : List OtpRow
deriving DecidableEq, Repr

/-- An HTTP response: status code and the message field of the JSON body. -/
structure Response where
  status : Nat
  message : String
deriving DecidableEq, Repr

/-! ## JS string primitives used by the handlers -/

/-- JS `String.prototype.startsWith` on ASCII strings: the argument is a
leading run of the receiver. -/
def jsStartsWith (s pre : String) : Bool :=
  List.isPrefixOf pre.toList s.toList

/-- Split a character list at every space, keeping empty pieces, as JS
`split(" ")` does. -/
def jsSplitSpaceAux : List Char → List Char → List (List Char)
  | [], acc => [acc.reverse]
  | c :: rest, acc =>
    if c = ' ' then acc.reverse :: jsSplitSpaceAux rest []
    else jsSplitSpaceAux rest (c :: acc)

/-- JS `s.split(" ")`: the pieces of the string between the occurrences of
a single space, empty pieces included. -/
def jsSplitSpace (s : String) : List String :=
  (jsSplitSpaceAux s.toList []).map List.asString

/-- JS `token.split(" ")[1]`: the element at index 1 of the split on a
single space, or undefined (modelled as "") when the split has fewer than
two pieces. -/
def jsSplitSecond (s : String) : String :=
  (jsSplitSpace s).getD 1 ""

/-! ## Sign-in (UserController.signIn) -/

/-- `drizzle.query.usersTable.findFirst({ where: eq(users.email, email) })`:
first user row whose email equals the argument. -/
def findUserByEmail (store : Store) (email : String) : Option UserRow :=
  store.users.find? (fun u => u.email == email)

/-- Result of the sign-in handler: the reply plus the authenticated user
attached to the 200 response (`none` on either failure path). -/
structure SignInResult where
  resp : Response
  data : Option UserRow
deriving DecidableEq, Repr

/-- The sign-in handler. Looks up the user by email; replies 422
"Invalid email or password" when absent; otherwise compares the stored
password field against the submitted password with `!==` (plain string
inequality) and replies 422 "Please enter correct password" on mismatch;
on match replies 200 "Login successful" with the user row. -/
def signIn (store : Store) (email password : String) : SignInResult :=
  match findUserByEmail store email with
  | none => ⟨⟨422, "Invalid email or password"⟩, none⟩
  | some user =>
    if user.password != password then
      ⟨⟨422, "Please enter correct password"⟩, none⟩
    else
      ⟨⟨200, "Login successful"⟩, some user⟩

/-- Modelled from the spec: `hashPassword` (src/src/utils/index.ts) calls
the external bcrypt library, which is not part of this repository, with
cost factor 10. Per the spec it is a salted one-way adaptive hash; a
bcrypt cost-10 hash string is the seven-character modular-crypt header
naming the algorithm and cost, followed by the base64 text of the random
salt and the digest, which we take as a parameter. -/
def hashPassword (saltDigest : String) : String :=
  "$2b$10$" ++ saltDigest

theorem jsStartsWith_hashPassword (saltDigest : String) :
    jsStartsWith (hashPassword saltDigest) "$2b$10$" = true := by
  simp only [jsStartsWith, hashPassword, String.toList]
  rw [String.data_append]
  exact List.isPrefixOf_iff_prefix.mpr (List.prefix_append _ _)

/-- C1: in the sign-in flow, when the email matches a stored user,
authentication succeeds (a user is attached to a 200 reply) iff the stored
password field equals the submitted plaintext byte for byte; consequently a
stored bcrypt hash never matches a plaintext attempt that does not itself
begin with the bcrypt header. -/
theorem c1_signin_direct_equality :
    (∀ store email password user,
      findUserByEmail store email = some user →
      ((signIn store email password).data.isSome = true ↔
        user.password = password)) ∧
    (∀ store email password user saltDigest,
      findUserByEmail store email = some user →
      user.password = hashPassword saltDigest →
      jsStartsWith password "$2b$10$" = false →
      (signIn store email password).data = none ∧
      (signIn store email password).resp.status = 422) := by
  constructor
  · intro store email password user hfind
    simp only [signIn, hfind]
    by_cases h : user.password = password
    · simp [h]
    · simp [h, bne_iff_ne, Ne, h]
  · intro store email password user saltDigest hfind hpw hpre
    have hne : user.password ≠ password := by
      intro heq
      rw [hpw] at heq
      rw [← heq] at hpre
      rw [jsStartsWith_hashPassword] at hpre
      exact Bool.true_eq_false.mp hpre
    simp [signIn, hfind, bne_iff_ne, hne]

theorem c1_witness :
    (signIn ⟨[⟨1, "Al", "a@b.com", hashPassword "salthash", "1234567890"⟩], []⟩
        "a@b.com" "Abc123!@").data = none ∧
    (signIn ⟨[⟨1, "Al", "a@b.com", hashPassword "salthash", "1234567890"⟩], []⟩
        "a@b.com" "Abc123!@").resp.status = 422 :=
  c1_signin_direct_equality.2
    ⟨[⟨1, "Al", "a@b.com", hashPassword "salthash", "1234567890"⟩], []⟩
    "a@b.com" "Abc123!@" ⟨1, "Al", "a@b.com", hashPassword "salthash", "1234567890"⟩
    "salthash" (by decide) (by decide) (by decide)

/-! ## Sign-up (UserController.signUp) -/

/-- One store operation performed by the sign-up handler, in program
order: the duplicate-email query, the unused-OTP query, the user insert,
the update marking the OTP rows of an email used. -/
inductive DbOp where
  | queryUserByEmail (email : String)
  | queryOtp (email code : String)
  | insertUser (row : UserRow)
  | markOtpsUsed (email : String)
deriving DecidableEq, Repr

/-- Result of the sign-up handler: the reply, the store after the request,
the trace of store operations performed, and the created user attached to
the 200 response. -/
structure SignUpResult where
  resp : Response
  store : Store
  trace : List DbOp
  data : Option UserRow
deriving DecidableEq, Repr

/-- `drizzle.query.otpTable.findFirst({ where: and(eq(otp.email, email),
eq(otp.isUsed, false), eq(otp.code, recivedOtp)) })`: first OTP row whose
email and code match with the used flag still false. -/
def findValidOtp (store : Store) (email code : String) : Option OtpRow :=
  store.otps.find? (fun o => o.email == email && o.isUsed == false && o.code == code)

/-- `update(otpTable).set({ isUsed: true }).where(eq(otpTable.email, email))`:
set the used flag on every OTP row whose email matches, leaving the rest
unchanged. -/
def markOtpsUsed (otps : List OtpRow) (email : String) : List OtpRow :=
  otps.map (fun o => if o.email == email then { o with isUsed := true } else o)

/-- The sign-up handler. In order: reject 422 "Email already exists" when a
user row with the email exists; reject 422 "Invalid OTP code either used or
expired" when no unused OTP row matches email and code; otherwise insert
the user (password hashed) and mark every OTP row of that email used, reply
200 with the created row. The bcrypt output and the id assigned by the
database are parameters (`hashed`, `newId`). -/
def signUp (store : Store) (name email phone otp : String)
    (hashed : String) (newId : Nat) : SignUpResult :=
  match findUserByEmail store email with
  | some _ =>
    ⟨⟨422, "Email already exists"⟩, store, [.queryUserByEmail email], none⟩
  | none =>
    match findValidOtp store email otp with
    | none =>
      ⟨⟨422, "Invalid OTP code either used or expired"⟩, store,
        [.queryUserByEmail email, .queryOtp email otp], none⟩
    | some _ =>
      let newUser : UserRow := ⟨newId, name, email, phone, hashed⟩
      ⟨⟨200, "Sign up successful"⟩,
        ⟨store.users ++ [newUser], markOtpsUsed store.otps email⟩,
        [.queryUserByEmail email, .queryOtp email otp,
          .insertUser newUser, .markOtpsUsed email],
        some newUser⟩

/-- An unused OTP row matching the submitted email and code exists. -/
def matchingUnusedOtp (store : Store) (email code : String) : Prop :=
  ∃ o ∈ store.otps, o.email = email ∧ o.code = code ∧ o.isUsed = false

theorem findValidOtp_eq_none_iff (store : Store) (email code : String) :
    findValidOtp store email code = none ↔ ¬ matchingUnusedOtp store email code := by
  simp only [findValidOtp, List.find?_eq_none, matchingUnusedOtp, not_exists]
  constructor
  · rintro h o ⟨ho, he, hc, hu⟩
    have := h o ho
    simp [he, hc, hu] at this
  · intro h o ho hp
    simp only [Bool.and_eq_true, beq_iff_eq] at hp
    exact h o ⟨ho, hp.1.1, hp.2, hp.1.2⟩

/-- C2: a user row is inserted by sign-up only when, at the time of the
check, an unused OTP row matches the submitted email and code; when no such
row exists the reply is 422 and the store is unchanged. -/
theorem c2_signup_requires_matching_otp :
    ∀ store name email phone otp hashed newId,
      (¬ matchingUnusedOtp store email otp →
        (signUp store name email phone otp hashed newId).resp.status = 422 ∧
        (signUp store name email phone otp hashed newId).store = store) ∧
      ((signUp store name email phone otp hashed newId).store.users ≠ store.users →
        matchingUnusedOtp store email otp) := by
  intro store name email phone otp hashed newId
  constructor
  · intro hno
    have hnone : findValidOtp store email otp = none :=
      (findValidOtp_eq_none_iff store email otp).mpr hno
    unfold signUp
    cases hfu : findUserByEmail store email with
    | some u => exact ⟨rfl, rfl⟩
    | none => rw [hnone]; exact ⟨rfl, rfl⟩
  · intro hchanged
    by_contra hno
    have hnone : findValidOtp store email otp = none :=
      (findValidOtp_eq_none_iff store email otp).mpr hno
    apply hchanged
    unfold signUp
    cases hfu : findUserByEmail store email with
    | some u => rfl
    | none => rw [hnone]

theorem c2_witness :
    (signUp ⟨[], [⟨7, "a@b.com", "1234", true⟩]⟩ "Al" "a@b.com" "1234567890"
        "1234" "h" 1).resp.status = 422 ∧
    (signUp ⟨[], [⟨7, "a@b.com", "1234", true⟩]⟩ "Al" "a@b.com" "1234567890"
        "1234" "h" 1).store = ⟨[], [⟨7, "a@b.com", "1234", true⟩]⟩ :=
  (c2_signup_requires_matching_otp ⟨[], [⟨7, "a@b.com", "1234", true⟩]⟩
      "Al" "a@b.com" "1234567890" "1234" "h" 1).1
    (by rintro ⟨o, ho, -, -, hu⟩; simp at ho; rw [ho] at hu; simp at hu)

theorem markOtpsUsed_used (otps : List OtpRow) (email : String) :
    ∀ o ∈ markOtpsUsed otps email, o.email = email → o.isUsed = true := by
  intro o ho he
  simp only [markOtpsUsed, List.mem_map] at ho
  obtain ⟨o₀, _, rfl⟩ := ho
  by_cases h : o₀.email = email
  · simp [h]
  · rw [if_neg (by simpa using h)] at he
    exact absurd he h

/-- C4: on the success path (email fresh, an unused OTP row matches email
and code), sign-up appends exactly one user row, and the OTP table becomes
the pointwise marking of every row whose email equals the submitted email
as used — so every OTP row of that email, not only the matched one, ends
used. -/
theorem c4_signup_marks_all_otps :
    ∀ store name email phone otp hashed newId o,
      findUserByEmail store email = none →
      findValidOtp store email otp = some o →
      (signUp store name email phone otp hashed newId).resp.status = 200 ∧
      (signUp store name email phone otp hashed newId).store.users =
        store.users ++ [⟨newId, name, email, phone, hashed⟩] ∧
      (signUp store name email phone otp hashed newId).store.users.length =
        store.users.length + 1 ∧
      (signUp store name email phone otp hashed newId).store.otps =
        markOtpsUsed store.otps email ∧
      (∀ o₂ ∈ (signUp store name email phone otp hashed newId).store.otps,
        o₂.email = email → o₂.isUsed = true) := by
  intro store name email phone otp hashed newId o hfu hotp
  unfold signUp
  rw [hfu, hotp]
  exact ⟨rfl, rfl, by simp, rfl, markOtpsUsed_used store.otps email⟩

theorem c4_witness :
    (signUp ⟨[], [⟨7, "a@b.com", "1234", false⟩, ⟨8, "a@b.com", "9999", false⟩]⟩
        "Al" "a@b.com" "1234567890" "1234" "h" 1).store.users =
      [⟨1, "Al", "a@b.com", "1234567890", "h"⟩] ∧
    (signUp ⟨[], [⟨7, "a@b.com", "1234", false⟩, ⟨8, "a@b.com", "9999", false⟩]⟩
        "Al" "a@b.com" "1234567890" "1234" "h" 1).store.otps =
      [⟨7, "a@b.com", "1234", true⟩, ⟨8, "a@b.com", "9999", true⟩] := by
  have h := c4_signup_marks_all_otps
    ⟨[], [⟨7, "a@b.com", "1234", false⟩, ⟨8, "a@b.com", "9999", false⟩]⟩
    "Al" "a@b.com" "1234567890" "1234" "h" 1 ⟨7, "a@b.com", "1234", false⟩
    (by decide) (by decide)
  exact ⟨h.2.1.trans (by decide), h.2.2.2.1.trans (by decide)⟩

/-- C5: when a user row with the submitted email already exists, sign-up
replies 422 "Email already exists", leaves the store unchanged, and its
trace is the duplicate-email query alone — the OTP lookup, the insert and
the update never run, whatever OTP was submitted. -/
theorem c5_duplicate_email_first :
    ∀ store name email phone otp hashed newId u,
      u ∈ store.users → u.email = email →
      (signUp store name email phone otp hashed newId).resp =
        ⟨422, "Email already exists"⟩ ∧
      (signUp store name email phone otp hashed newId).store = store ∧
      (signUp store name email phone otp hashed newId).trace =
        [DbOp.queryUserByEmail email] := by
  intro store name email phone otp hashed newId u hu he
  have : findUserByEmail store email ≠ none := by
    simp only [findUserByEmail, Ne, List.find?_eq_none, not_forall]
    exact ⟨u, hu, by simp [he]⟩
  unfold signUp
  cases hfu : findUserByEmail store email with
  | none => exact absurd hfu this
  | some v => exact ⟨rfl, rfl, rfl⟩

theorem c5_witness :
    (signUp ⟨[⟨1, "Al", "a@b.com", "h", "1234567890"⟩], [⟨7, "a@b.com", "1234", false⟩]⟩
        "Bo" "a@b.com" "0987654321" "1234" "h2" 2).resp =
      ⟨422, "Email already exists"⟩ ∧
    (signUp ⟨[⟨1, "Al", "a@b.com", "h", "1234567890"⟩], [⟨7, "a@b.com", "1234", false⟩]⟩
        "Bo" "a@b.com" "0987654321" "1234" "h2" 2).trace =
      [DbOp.queryUserByEmail "a@b.com"] := by
  have h := c5_duplicate_email_first
    ⟨[⟨1, "Al", "a@b.com", "h", "1234567890"⟩], [⟨7, "a@b.com", "1234", false⟩]⟩
    "Bo" "a@b.com" "0987654321" "1234" "h2" 2
    ⟨1, "Al", "a@b.com", "h", "1234567890"⟩ (by decide) (by decide)
  exact ⟨h.1, h.2.2⟩

/-! ## Auth gate (AuthMiddleware.handle, src/src/middleware/auth.middleware.ts) -/

/-- The payload of a verified session token: id, email, name. -/
structure JwtPayload where
  id : String
  email : String
  name : String
deriving DecidableEq, Repr

/-- The error thrown by the jose verification call: its code, name and
message fields, as inspected by the catch block. -/
structure JoseError where
  code : String
  name : String
  message : String
deriving DecidableEq, Repr

/-- The control decision taken by the guard at the top of the middleware:
an early 401 before any verification (header undefined, empty, or lacking
the literal "Bearer " head), or a call of `verifyJWT` on
`token.split(" ")[1]`. -/
inductive GateStep where
  | reject
  | callVerify (token : String)
deriving DecidableEq, Repr

/-- `if (!token || !token.startsWith("Bearer "))` — an absent header is
undefined and an empty string is falsy, both rejected; otherwise
verification runs on the second piece of the space-split header. -/
def gateStep (header : Option String) : GateStep :=
  match header with
  | none => .reject
  | some t =>
    if t == "" || !(jsStartsWith t "Bearer ") then .reject
    else .callVerify (jsSplitSecond t)

/-- The catch block message: "Token expired" when the error is
ERR_JWT_EXPIRED/JWTExpired, "Invalid token" otherwise. -/
def joseErrorMessage (e : JoseError) : String :=
  if e.code == "ERR_JWT_EXPIRED" || e.name == "JWTExpired" then "Token expired"
  else "Invalid token"

/-- Outcome of the middleware: reply status when it replies (401 on every
failure path, none when the request continues), the error message sent,
whether `verifyJWT` was invoked, and the payload attached to the request. -/
structure GateResult where
  status : Option Nat
  errMsg : Option String
  verifyCalled : Bool
  user : Option JwtPayload
deriving DecidableEq, Repr

/-- The middleware, with the external jose verification passed in as
`verify`: guard per `gateStep`; on an early reject reply 401
"Unauthorized"; otherwise verify the extracted token, attach the payload
on success, and reply 401 with the catch-block message on error. -/
def handle (verify : String → Except JoseError JwtPayload)
    (header : Option String) : GateResult :=
  match gateStep header with
  | .reject => ⟨some 401, some "Unauthorized", false, none⟩
  | .callVerify tok =>
    match verify tok with
    | .ok payload => ⟨none, none, true, some payload⟩
    | .error e => ⟨some 401, some (joseErrorMessage e), true, none⟩

/-- C3 as stated is false: the header "Bearer " is malformed in the sense
of the claim (well-formed head, empty token after it), yet the guard does
not take the early-reject branch — `verifyJWT` is invoked on the empty
string. -/
theorem c3_counterexample :
    jsStartsWith "Bearer " "Bearer " = true ∧
    jsSplitSecond "Bearer " = "" ∧
    gateStep (some "Bearer ") ≠ GateStep.reject ∧
    gateStep (some "Bearer ") = GateStep.callVerify "" ∧
    (handle (fun _ => Except.error ⟨"ERR_JWS_INVALID", "JWSInvalid",
        "Compact JWS must be a string or Uint8Array"⟩)
      (some "Bearer ")).verifyCalled = true := by
  decide

/-- C3 amended: when the Authorization header is absent, empty, or does not
start with "Bearer ", the middleware replies 401 without invoking
verification; when the header is exactly "Bearer " (empty token after the
head) verification IS invoked, on the empty-string token, and since the
verification of that token fails the reply is still 401. -/
theorem c3_amended_auth_gate :
    (∀ (verify : String → Except JoseError JwtPayload) (header : Option String),
      (header = none ∨ header = some "" ∨
        (∀ t, header = some t → jsStartsWith t "Bearer " = false)) →
      handle verify header = ⟨some 401, some "Unauthorized", false, none⟩) ∧
    (∀ verify, (handle verify (some "Bearer ")).verifyCalled = true) ∧
    (∀ verify e, verify "" = Except.error e →
      (handle verify (some "Bearer ")).status = some 401) := by
  refine ⟨?_, ?_, ?_⟩
  · intro verify header hmal
    rcases hmal with rfl | rfl | hns
    · rfl
    · rfl
    · cases header with
      | none => rfl
      | some t =>
        have h := hns t rfl
        simp only [handle, gateStep]
        rw [if_pos (by simp [h])]
  · intro verify
    have hgs : gateStep (some "Bearer ") = GateStep.callVerify "" := by decide
    simp only [handle, hgs]
    cases hv : verify "" <;> rfl
  · intro verify e hv
    have hgs : gateStep (some "Bearer ") = GateStep.callVerify "" := by decide
    simp only [handle, hgs, hv]

theorem c3_witness :
    handle (fun _ => Except.error ⟨"ERR_JWS_INVALID", "JWSInvalid", "bad"⟩)
        (some "Token abc") = ⟨some 401, some "Unauthorized", false, none⟩ ∧
    (handle (fun _ => Except.error ⟨"ERR_JWS_INVALID", "JWSInvalid", "bad"⟩)
        (some "Bearer ")).status = some 401 :=
  ⟨c3_amended_auth_gate.1 _ (some "Token abc")
      (Or.inr (Or.inr (fun t ht => by cases ht; decide))),
    c3_amended_auth_gate.2.2 _ ⟨"ERR_JWS_INVALID", "JWSInvalid", "bad"⟩ rfl⟩

/-! ## Top-level error handler (src/src/index.ts, setErrorHandler) -/

/-- The reply of the error handler: the numeric status sent and the
message field of the JSON body. -/
structure ErrReply where
  status : Int
  message : String
deriving DecidableEq, Repr

/-- `err.statusCode && err.statusCode >= 400 && err.statusCode < 600 ?
err.statusCode : 500` — an absent statusCode is undefined (falsy), a zero
one falsy as well. -/
def errorHandlerStatus (statusCode : Option Int) : Int :=
  match statusCode with
  | none => 500
  | some c => if c ≠ 0 ∧ 400 ≤ c ∧ c < 600 then c else 500

/-- The handler body: reply with the computed status; the message is the
fixed "Internal server error" when that status is 500 and the thrown
error's own message otherwise. -/
def fastifyErrorHandler (statusCode : Option Int) (errMessage : String) : ErrReply :=
  let status := errorHandlerStatus statusCode
  ⟨status, if status == 500 then "Internal server error" else errMessage⟩

/-- C6: the error envelope carries the thrown statusCode when it lies in
400–599 and 500 otherwise; whenever the resulting status is 500 the
message is the fixed generic string, and otherwise it is the error's own
message. -/
theorem c6_error_envelope :
    ∀ (statusCode : Option Int) (errMessage : String),
      (∀ c, statusCode = some c → 400 ≤ c → c < 600 →
        (fastifyErrorHandler statusCode errMessage).status = c) ∧
      ((∀ c, statusCode = some c → ¬(400 ≤ c ∧ c < 600)) →
        (fastifyErrorHandler statusCode errMessage).status = 500) ∧
      ((fastifyErrorHandler statusCode errMessage).status = 500 →
        (fastifyErrorHandler statusCode errMessage).message = "Internal server error") ∧
      ((fastifyErrorHandler statusCode errMessage).status ≠ 500 →
        (fastifyErrorHandler statusCode errMessage).message = errMessage) := by
  intro statusCode errMessage
  refine ⟨?_, ?_, ?_, ?_⟩
  · rintro c rfl h4 h6
    simp only [fastifyErrorHandler, errorHandlerStatus]
    rw [if_pos ⟨by omega, h4, h6⟩]
  · intro hout
    cases statusCode with
    | none => rfl
    | some c =>
      have := hout c rfl
      simp only [fastifyErrorHandler, errorHandlerStatus]
      rw [if_neg (by tauto)]
  · intro h500
    simp only [fastifyErrorHandler] at h500 ⊢
    rw [if_pos (by simpa using h500)]
  · intro hne
    simp only [fastifyErrorHandler] at hne ⊢
    rw [if_neg (by simpa using hne)]

theorem c6_witness :
    (fastifyErrorHandler (some 422) "Invalid body").status = 422 ∧
    (fastifyErrorHandler (some 42) "boom").status = 500 ∧
    (fastifyErrorHandler (some 42) "boom").message = "Internal server error" ∧
    (fastifyErrorHandler (some 422) "Invalid body").message = "Invalid body" :=
  ⟨(c6_error_envelope (some 422) "Invalid body").1 422 rfl (by decide) (by decide),
    (c6_error_envelope (some 42) "boom").2.1
      (by intro c hc; obtain rfl : c = 42 := (Option.some.inj hc).symm; decide),
    (c6_error_envelope (some 42) "boom").2.2.1 (by decide),
    (c6_error_envelope (some 422) "Invalid body").2.2.2 (by decide)⟩

/-- C10: sign-in failure replies distinguish their cause — 422
"Invalid email or password" when no user row has the email, the distinct
422 "Please enter correct password" when a row exists but the stored
password differs, so the body reveals whether an email is registered. -/
theorem c10_signin_distinct_messages :
    ∀ store email password,
      (findUserByEmail store email = none →
        (signIn store email password).resp = ⟨422, "Invalid email or password"⟩) ∧
      (∀ user, findUserByEmail store email = some user → user.password ≠ password →
        (signIn store email password).resp = ⟨422, "Please enter correct password"⟩) ∧
      ("Invalid email or password" : String) ≠ "Please enter correct password" := by
  intro store email password
  refine ⟨?_, ?_, by decide⟩
  · intro hnone
    simp [signIn, hnone]
  · intro user hfind hne
    simp [signIn, hfind, bne_iff_ne, hne]

theorem c10_witness :
    (signIn ⟨[], []⟩ "a@b.com" "pw").resp = ⟨422, "Invalid email or password"⟩ ∧
    (signIn ⟨[⟨1, "Al", "a@b.com", "stored", ""⟩], []⟩ "a@b.com" "pw").resp =
      ⟨422, "Please enter correct password"⟩ :=
  ⟨(c10_signin_distinct_messages ⟨[], []⟩ "a@b.com" "pw").1 rfl,
    (c10_signin_distinct_messages ⟨[⟨1, "Al", "a@b.com", "stored", ""⟩], []⟩
        "a@b.com" "pw").2.1 ⟨1, "Al", "a@b.com", "stored", ""⟩ rfl (by decide)⟩

/-! ## Request validation (src/src/utils/index.ts: formatZodErrors,
validateWithZod; src/src/users/user.validation.schema.ts) -/

/-- One zod issue: the path of the failing field and the message of the
failing rule. -/
structure ZodIssue where
  path : List String
  message : String
deriving DecidableEq, Repr

/-- `issue.path.join(".")`. -/
def issueKey (i : ZodIssue) : String := String.intercalate "." i.path

/-- The body of the for-loop of `formatZodErrors`:
`if (!formatted[path]) formatted[path] = issue.message`. The record is an
association list in insertion order. -/
def zodErrStep (formatted : List (String × String)) (issue : ZodIssue) :
    List (String × String) :=
  if (formatted.find? (fun kv => kv.fst == issueKey issue)).isSome then formatted
  else formatted ++ [(issueKey issue, issue.message)]

/-- `formatZodErrors`: fold the issues in order, keeping for each path only
the first message. -/
def formatZodErrors (issues : List ZodIssue) : List (String × String) :=
  issues.foldl zodErrStep []

/-- Reading `formatted[path]` from the details record. -/
def lookupField (formatted : List (String × String)) (key : String) :
    Option String :=
  (formatted.find? (fun kv => kv.fst == key)).map Prod.snd

theorem lookupField_append_single (acc : List (String × String))
    (k m key : String) :
    lookupField (acc ++ [(k, m)]) key =
      (lookupField acc key).or (if k == key then some m else none) := by
  simp only [lookupField, List.find?_append]
  cases hf : acc.find? (fun kv => kv.fst == key) with
  | some kv => simp
  | none =>
    simp only [Option.none_or, Option.map_none']
    cases hk : (k == key) with
    | true => simp [List.find?, hk]
    | false => simp [List.find?, hk]

theorem lookupField_foldl (issues : List ZodIssue) :
    ∀ (acc : List (String × String)) (key : String),
      lookupField (issues.foldl zodErrStep acc) key =
        (lookupField acc key).or
          ((issues.find? (fun i => issueKey i == key)).map ZodIssue.message) := by
  induction issues with
  | nil => intro acc key; simp
  | cons i rest ih =>
    intro acc key
    rw [List.foldl_cons, ih]
    cases hk : (issueKey i == key) with
    | true =>
      have hkey : issueKey i = key := by simpa using hk
      simp only [List.find?_cons, hk]
      unfold zodErrStep
      by_cases hf : (acc.find? (fun kv => kv.fst == issueKey i)).isSome
      · rw [if_pos hf]
        obtain ⟨kv, hkv⟩ := Option.isSome_iff_exists.mp hf
        have : lookupField acc key = some kv.snd := by
          simp [lookupField, hkey ▸ hkv]
        rw [this]
        simp
      · rw [if_neg hf, lookupField_append_single, hk]
        have : lookupField acc key = none := by
          have := Option.not_isSome_iff_eq_none.mp hf
          simp [lookupField, hkey ▸ this]
        rw [this]
        simp
    | false =>
      simp only [List.find?_cons, hk]
      unfold zodErrStep
      by_cases hf : (acc.find? (fun kv => kv.fst == issueKey i)).isSome
      · rw [if_pos hf]
      · rw [if_neg hf, lookupField_append_single, hk]
        simp

/-- The halting reply sent by the validation hook: status, error label,
details record. -/
structure HaltResponse where
  status : Nat
  errLabel : String
  details : List (String × String)
deriving DecidableEq, Repr

/-- `validateWithZod`: check body, then query, then params; on the first
failing `safeParse` reply 422 with the formatted issues; on success pass
the parsed values through (the handler sees the parsed body). Each schema
argument is the parse result of the corresponding request part, `none` when
the route declares no schema for it. -/
def validateWithZod {β γ δ : Type}
    (body : Option (Except (List ZodIssue) β))
    (query : Option (Except (List ZodIssue) γ))
    (params : Option (Except (List ZodIssue) δ)) :
    Except HaltResponse (Option β × Option γ × Option δ) := do
  let b ← match body with
    | none => pure none
    | some (Except.ok v) => pure (some v)
    | some (Except.error e) => throw ⟨422, "Invalid body", formatZodErrors e⟩
  let q ← match query with
    | none => pure none
    | some (Except.ok v) => pure (some v)
    | some (Except.error e) => throw ⟨422, "Invalid query", formatZodErrors e⟩
  let p ← match params with
    | none => pure none
    | some (Except.ok v) => pure (some v)
    | some (Except.error e) => throw ⟨422, "Invalid params", formatZodErrors e⟩
  return (b, q, p)

/-- What a route produced: the halting validation reply, or the reply of
the handler. -/
inductive RouteOutcome where
  | halted (resp : HaltResponse)
  | handled (resp : Response)
deriving DecidableEq, Repr

/-- Fastify runs the route handler only when the preValidation hook has
not already sent a reply; the Bool records whether the handler ran. -/
def runRoute {β γ δ : Type}
    (validation : Except HaltResponse (Option β × Option γ × Option δ))
    (handler : Option β × Option γ × Option δ → Response) :
    RouteOutcome × Bool :=
  match validation with
  | .error h => (.halted h, false)
  | .ok v => (.handled (handler v), true)

/-- C7: a request whose body fails schema validation is short-circuited
with 422 before the handler runs, and the details record maps each failing
field path to the message of its first failing rule only — later issues of
the same path are discarded. -/
theorem c7_validation_first_violation :
    ∀ (β γ δ : Type) (issues : List ZodIssue)
      (query : Option (Except (List ZodIssue) γ))
      (params : Option (Except (List ZodIssue) δ))
      (handler : Option β × Option γ × Option δ → Response),
      (runRoute (validateWithZod (some (Except.error issues)) query params)
        handler).2 = false ∧
      (runRoute (validateWithZod (some (Except.error issues)) query params)
        handler).1 =
        RouteOutcome.halted ⟨422, "Invalid body", formatZodErrors issues⟩ ∧
      (∀ key, lookupField (formatZodErrors issues) key =
        (issues.find? (fun i => issueKey i == key)).map ZodIssue.message) := by
  intro β γ δ issues query params handler
  refine ⟨rfl, rfl, ?_⟩
  intro key
  rw [formatZodErrors, lookupField_foldl]
  simp [lookupField]

theorem c7_witness :
    (runRoute (validateWithZod
        (some (Except.error
          [⟨["password"], "Password must be at least 8 characters"⟩,
            ⟨["password"], "Password must contain at least one uppercase letter"⟩]))
        (none : Option (Except (List ZodIssue) Unit))
        (none : Option (Except (List ZodIssue) Unit)))
      (fun (_ : Option Unit × Option Unit × Option Unit) => ⟨200, "ok"⟩)).2 =
      false ∧
    lookupField (formatZodErrors
        [⟨["password"], "Password must be at least 8 characters"⟩,
          ⟨["password"], "Password must contain at least one uppercase letter"⟩])
      "password" = some "Password must be at least 8 characters" :=
  ⟨(c7_validation_first_violation Unit Unit Unit
      [⟨["password"], "Password must be at least 8 characters"⟩,
        ⟨["password"], "Password must contain at least one uppercase letter"⟩]
      none none (fun _ => ⟨200, "ok"⟩)).1,
    ((c7_validation_first_violation Unit Unit Unit
      [⟨["password"], "Password must be at least 8 characters"⟩,
        ⟨["password"], "Password must contain at least one uppercase letter"⟩]
      none none (fun _ => ⟨200, "ok"⟩)).2.2 "password").trans (by decide)⟩

/-! ## OTP generator (src/src/utils/index.ts, generate4DigitOTP) -/

/-- JS `String.prototype.padStart(targetLength, pad)`: left-pad with the
pad character up to the target length; a string already that long is
returned unchanged. -/
def padStart (s : String) (targetLength : Nat) (pad : Char) : String :=
  List.asString (List.replicate (targetLength - s.length) pad) ++ s

/-- `generate4DigitOTP`: `randomInt(0, 10_000).toString().padStart(4, "0")`.
The draw of `randomInt`, an integer in [0, 10000), is the parameter. -/
def generate4DigitOTP (n : Nat) : String :=
  padStart (Nat.repr n) 4 '0'

theorem padStart_length (s : String) (k : Nat) (pad : Char)
    (h : s.length ≤ k) : (padStart s k pad).length = k := by
  have h1 : (padStart s k pad).length = (k - s.length) + s.length := by
    show (List.replicate (k - s.length) pad ++ s.data).length =
      (k - s.length) + s.length
    rw [List.length_append, List.length_replicate]
    rfl
  omega

theorem digitChar_isDigit (m : Nat) (h : m < 10) :
    (Nat.digitChar m).isDigit = true := by
  interval_cases m <;> decide

theorem toDigitsCore_all_digits :
    ∀ (f n : Nat) (acc : List Char),
      (∀ c ∈ acc, c.isDigit = true) →
      ∀ c ∈ Nat.toDigitsCore 10 f n acc, c.isDigit = true := by
  intro f
  induction f with
  | zero => exact fun n acc hacc => hacc
  | succ f ih =>
    intro n acc hacc
    have hcons : ∀ c ∈ (Nat.digitChar (n % 10) :: acc), c.isDigit = true := by
      intro c hc
      rcases List.mem_cons.mp hc with rfl | hc
      · exact digitChar_isDigit (n % 10) (Nat.mod_lt n (by norm_num))
      · exact hacc c hc
    intro c hc
    simp only [Nat.toDigitsCore] at hc
    by_cases h0 : n / 10 = 0
    · rw [if_pos h0] at hc
      exact hcons c hc
    · rw [if_neg h0] at hc
      exact ih (n / 10) _ hcons c hc

theorem repr_all_digits (n : Nat) :
    ∀ c ∈ (Nat.repr n).toList, c.isDigit = true := by
  intro c hc
  exact toDigitsCore_all_digits (n + 1) n []
    (by intro x hx; exact absurd hx (List.not_mem_nil x)) c hc

/-- C8: for every draw of the random source, the generated OTP is a string
of exactly four decimal digit characters, and it is the zero-padded decimal
representation of the drawn integer. -/
theorem c8_otp_four_digits :
    ∀ n : Nat, n < 10000 →
      (generate4DigitOTP n).length = 4 ∧
      (generate4DigitOTP n).toList.all Char.isDigit = true ∧
      generate4DigitOTP n = padStart (Nat.repr n) 4 '0' := by
  intro n hn
  have hlen : (Nat.repr n).length ≤ 4 :=
    Nat.repr_length n 4 (by norm_num) (by norm_num; omega)
  refine ⟨padStart_length _ _ _ hlen, ?_, rfl⟩
  rw [List.all_eq_true]
  intro c hc
  have hsplit : (generate4DigitOTP n).toList =
      List.replicate (4 - (Nat.repr n).length) '0' ++ (Nat.repr n).toList := rfl
  rw [hsplit] at hc
  rcases List.mem_append.mp hc with hc | hc
  · rw [List.eq_of_mem_replicate hc]; decide
  · exact repr_all_digits n c hc

theorem c8_witness :
    (generate4DigitOTP 7).length = 4 ∧
    (generate4DigitOTP 7).toList.all Char.isDigit = true ∧
    generate4DigitOTP 7 = "0007" :=
  ⟨(c8_otp_four_digits 7 (by norm_num)).1,
    (c8_otp_four_digits 7 (by norm_num)).2.1,
    (c8_otp_four_digits 7 (by norm_num)).2.2.trans (by decide)⟩

/-! ## Password rule of signUpUserSchema
(src/src/users/user.validation.schema.ts) -/

/-- The regex class [A-Z]. -/
def isAsciiUpper (c : Char) : Bool := 'A' ≤ c && c ≤ 'Z'

/-- The regex class [a-z]. -/
def isAsciiLower (c : Char) : Bool := 'a' ≤ c && c ≤ 'z'

/-- The regex class [0-9]. -/
def isAsciiDigit (c : Char) : Bool := '0' ≤ c && c ≤ '9'

/-- The regex class [^A-Za-z0-9]. -/
def isSpecialChar (c : Char) : Bool :=
  !(isAsciiUpper c || isAsciiLower c || isAsciiDigit c)

/-- JS `regex.test(s)` for a single character class: some character of the
string lies in the class. -/
def jsTestClass (s : String) (cls : Char → Bool) : Bool := s.toList.any cls

/-- The password rules of `signUpUserSchema` (identical in
`signInUserSchema`), in chain order: min 8 characters, one uppercase
letter, one lowercase letter, one digit, one special character. A failing
rule contributes its issue at path ["password"]. -/
def passwordIssues (password : String) : List ZodIssue :=
  (if password.length < 8 then
    [⟨["password"], "Password must be at least 8 characters"⟩] else []) ++
  (if !jsTestClass password isAsciiUpper then
    [⟨["password"], "Password must contain at least one uppercase letter"⟩] else []) ++
  (if !jsTestClass password isAsciiLower then
    [⟨["password"], "Password must contain at least one lowercase letter"⟩] else []) ++
  (if !jsTestClass password isAsciiDigit then
    [⟨["password"], "Password must contain at least one number"⟩] else []) ++
  (if !jsTestClass password isSpecialChar then
    [⟨["password"], "Password must contain at least one special character"⟩] else [])

/-- The password field passes validation: no rule of the chain fails. -/
def passwordAccepted (password : String) : Bool :=
  passwordIssues password == []

/-- C9: the password rule rejects "abc12345" — precisely the uppercase and
special-character rules fail — and accepts "Abc123!@". -/
theorem c9_password_examples :
    passwordAccepted "abc12345" = false ∧
    passwordAccepted "Abc123!@" = true ∧
    (passwordIssues "abc12345").map ZodIssue.message =
      ["Password must contain at least one uppercase letter",
        "Password must contain at least one special character"] := by
  decide

end FastifyBackend
